import Mathlib

/-!
Verification of the urunc Network Setup Subsystem (package `pkg/network`).

The repository ships the package's test files; the implementation file itself
is not part of the source tree given here.  Every operational definition below
is therefore a shallow embedding reconstructed from the natural-language
specification (spec.md) and pinned down by the constants and error strings the
in-tree tests assert on.  Host kernel networking state (interfaces, ingress
qdiscs, redirect filters, NAT rules, the IPv4-forwarding toggle) is modelled
as an explicit `Host` record threaded through each operation, and Go's
`(value, error)` returns plus the possibility of a runtime panic are modelled
by the `Outcome` type.
-/

set_option autoImplicit false

namespace Urunc

universe u

/-- Result of a Go call in the model: `ok` is a normal return, `err` is a
returned non-nil `error` value, and `fault` is a runtime panic (a fault that
is not a returned value). -/
inductive Outcome (α : Type u) where
  | ok : α → Outcome α
  | err : String → Outcome α
  | fault : String → Outcome α
  deriving DecidableEq, Repr

namespace Outcome

def bind {α β : Type u} : Outcome α → (α → Outcome β) → Outcome β
  | ok a, f => f a
  | err e, _ => err e
  | fault m, _ => fault m

instance : Monad Outcome where
  pure := ok
  bind := bind

@[simp] theorem bind_ok {α β : Type u} (a : α) (f : α → Outcome β) :
    Outcome.bind (ok a) f = f a := rfl

@[simp] theorem bind_err {α β : Type u} (e : String) (f : α → Outcome β) :
    Outcome.bind (err e) f = err e := rfl

@[simp] theorem bind_fault {α β : Type u} (m : String) (f : α → Outcome β) :
    Outcome.bind (fault m) f = fault m := rfl

@[simp] theorem monad_bind_eq {α β : Type u} (x : Outcome α) (f : α → Outcome β) :
    x >>= f = Outcome.bind x f := rfl

@[simp] theorem pure_eq {α : Type u} (a : α) : (pure a : Outcome α) = ok a := rfl

/-- Apply a wrapping function to the message of a returned error, leaving
normal returns and faults alone (Go's `fmt.Errorf("...: %w", err)` pattern). -/
def mapErr {α : Type u} (f : String → String) : Outcome α → Outcome α
  | ok a => ok a
  | err e => err (f e)
  | fault m => fault m

@[simp] theorem mapErr_ok {α : Type u} (f : String → String) (a : α) :
    mapErr f (ok a) = ok a := rfl

@[simp] theorem mapErr_err {α : Type u} (f : String → String) (e : String) :
    mapErr f (err e : Outcome α) = err (f e) := rfl

@[simp] theorem mapErr_fault {α : Type u} (f : String → String) (m : String) :
    mapErr f (fault m : Outcome α) = fault m := rfl

end Outcome

/-- Substring containment between strings, used to state that an error
message mentions a given phrase. -/
def MentionsStr (msg phrase : String) : Prop :=
  phrase.data <:+: msg.data

instance (msg phrase : String) : Decidable (MentionsStr msg phrase) :=
  inferInstanceAs (Decidable (phrase.data <:+: msg.data))

/-- Address material handed to a sandbox's network stack (Go struct
`Interface` in `pkg/network`); field names follow the source. -/
structure Interface where
  IP : String
  DefaultGateway : String
  Mask : String
  Interface : String
  MAC : String
  deriving DecidableEq, Repr

/-- The setup result returned to the orchestrator (Go struct
`UnikernelNetworkInfo`). -/
structure UnikernelNetworkInfo where
  TapDevice : String
  EthDevice : Interface
  deriving DecidableEq, Repr

/-- Constant `DefaultInterface = "eth0"` (asserted by TestConstants). -/
def DefaultInterface : String := "eth0"

/-- Constant `DefaultTap = "tapX_urunc"` (asserted by TestConstants). -/
def DefaultTap : String := "tapX_urunc"

/-- Constant `constants.StaticNetworkTapIP = "172.16.1.1"`
(asserted by TestStaticNetworkConstants). -/
def StaticNetworkTapIP : String := "172.16.1.1"

/-- Constant `constants.StaticNetworkUnikernelIP = "172.16.1.2"`
(asserted by TestStaticNetworkConstants). -/
def StaticNetworkUnikernelIP : String := "172.16.1.2"

/-- Constant `constants.DynamicNetworkTapIP = "172.16.X.2"`
(asserted by TestDynamicNetworkConstants). -/
def DynamicNetworkTapIP : String := "172.16.X.2"

/-- Constant `StaticIPAddr = constants.StaticNetworkTapIP + "/24"`
(asserted by TestStaticIPAddr). -/
def StaticIPAddr : String := StaticNetworkTapIP ++ "/24"

/-- Model of Go's `strings.ReplaceAll(s, "X", repl)` for the one-character
pattern `"X"`, which is the only pattern the package uses: every occurrence
of the character `X` is replaced by `repl`, left to right, with no rescanning
of the replacement. -/
def replaceX (repl : String) : List Char → List Char
  | [] => []
  | c :: rest => (if c = 'X' then repl.data else [c]) ++ replaceX repl rest

/-- String-level wrapper for `replaceX`. -/
def replaceXStr (repl s : String) : String :=
  ⟨replaceX repl s.data⟩

/-- One host network interface as the model sees it: its name, and the
attributes the Interface Introspector can read off it.  `mac`, `ipv4` and
`maskHex` are optional because an interface (e.g. loopback) may lack them;
`maskHex` is the kernel hexadecimal form of the netmask. -/
structure HostIface where
  name : String
  mac : Option String
  ipv4 : Option String
  maskHex : Option String
  gateway : String
  owner : Option (Nat × Nat)
  up : Bool
  deriving DecidableEq, Repr

/-- Modelled from the spec: the host kernel networking state the subsystem
reads and mutates — the interface namespace, ingress qdiscs (names of links
carrying an interception point), redirect filters (src link, dst link),
masquerade rules (iface, subnet) and the host-wide IPv4-forwarding toggle. -/
structure Host where
  ifaces : List HostIface
  qdiscs : List String
  filters : List (String × String)
  natRules : List (String × String)
  ipForward : Bool
  deriving DecidableEq, Repr

/-- Look up a host interface (netlink link) by name. -/
def findIface (host : Host) (name : String) : Option HostIface :=
  host.ifaces.find? (fun i => i.name == name)

/-- Number of host interfaces whose name begins with the virtual-device
prefix "tap", the character-level test the tests spell as
`len(iface.Name) >= 3 && iface.Name[:3] == "tap"`. -/
def tapIfaceCount (host : Host) : Nat :=
  (host.ifaces.filter (fun i => "tap".data.isPrefixOf i.name.data)).length

/-- Modelled from the spec (§4.2 Allocator, implementation `getTapIndex` not
in the tree): enumerates host interfaces, counts those whose name begins with
"tap", returns that count as the next index, failing if the count exceeds
255. -/
def getTapIndex (host : Host) : Outcome Nat :=
  let count := tapIfaceCount host
  if count > 255 then
    .err "getTapIndex: exceeded the maximum number of tap devices"
  else
    .ok count

/-- Modelled from the spec (§4.3/§8, implementation `ensureEth0Exists` not in
the tree): returns no error exactly when a host interface literally named
"eth0" is present; the error string is the one TestEnsureEth0Exists checks
for. -/
def ensureEth0Exists (host : Host) : Outcome Unit :=
  if (findIface host DefaultInterface).isSome then
    .ok ()
  else
    .err "eth0 device not found"

/-- Value of one hexadecimal digit character. -/
def hexDigitVal (c : Char) : Nat :=
  if '0' ≤ c ∧ c ≤ '9' then c.toNat - '0'.toNat
  else if 'a' ≤ c ∧ c ≤ 'f' then c.toNat - 'a'.toNat + 10
  else if 'A' ≤ c ∧ c ≤ 'F' then c.toNat - 'A'.toNat + 10
  else 0

/-- Octet values of a kernel hexadecimal netmask, two hex digits per octet. -/
def maskOctets : List Char → List Nat
  | a :: b :: rest => (16 * hexDigitVal a + hexDigitVal b) :: maskOctets rest
  | _ => []

/-- Modelled from the spec (§4.8): converts a netmask from its kernel
hexadecimal form (e.g. "ffffff00") to dotted decimal ("255.255.255.0"). -/
def convertMask (hex : String) : String :=
  String.intercalate "." ((maskOctets hex.data).map (fun n => toString n))

/-- Modelled from the spec (§4.8 Interface Introspector, implementation
`getInterfaceInfo` not in the tree): resolves MAC, IPv4 address, netmask
(converted from kernel hex form) and default gateway of the named interface.
An absent interface yields the Go stdlib "no such network interface" error;
a present interface missing an attribute yields the introspection errors the
tests enumerate.  On success the `Interface` field always carries the fixed
default label `DefaultInterface`, regardless of the queried name. -/
def getInterfaceInfo (host : Host) (name : String) : Outcome Interface :=
  match findIface host name with
  | none => .err ("route ip+net: no such network interface")
  | some ifc =>
    match ifc.mac with
    | none => .err "failed to get MAC address"
    | some mac =>
      match ifc.ipv4 with
      | none => .err "failed to find IPv4 address"
      | some ip =>
        match ifc.maskHex with
        | none => .err "failed to find mask"
        | some mh =>
          .ok { IP := ip, DefaultGateway := ifc.gateway, Mask := convertMask mh,
                Interface := DefaultInterface, MAC := mac }

/-- Modelled from the spec (§4.5 TAP Device Controller): creates a
multi-queue virtual point-to-point device with the given owning uid/gid and
brings it up.  Fails on an empty name, a negative queue count, or a name
collision with an existing link; on success the new link joins the host's
interface namespace. -/
def createTapDevice (host : Host) (name : String) (queues : Int) (uid gid : Nat) :
    Outcome (Host × HostIface) :=
  if name == "" then .err "invalid tap device name"
  else if queues < 0 then .err "invalid queue count"
  else if (findIface host name).isSome then .err "file exists"
  else
    let tap : HostIface :=
      { name := name, mac := none, ipv4 := none, maskHex := none,
        gateway := "", owner := some (uid, gid), up := true }
    .ok ({ host with ifaces := host.ifaces ++ [tap] }, tap)

/-- Modelled from the spec (§4.5): removes the device named by the handle.
A nil (absent/unresolved) handle is a caller contract violation and faults
immediately — a runtime panic, not a returned error (TestDeleteFunctions
asserts this panic).  A resolved handle whose link has meanwhile vanished
yields the kernel's returned "Link not found" error. -/
def deleteTapDevice (host : Host) (link : Option HostIface) : Outcome Host :=
  match link with
  | none => .fault "runtime error: invalid memory address or nil pointer dereference"
  | some l =>
    if (findIface host l.name).isSome then
      .ok { host with ifaces := host.ifaces.filter (fun i => i.name != l.name) }
    else
      .err "Link not found"

/-- Modelled from the spec (§4.6 Traffic Mirror Engine): attaches an ingress
interception point (qdisc) on a link's receive path; an absent link reference
fails with a returned error, it does not fault. -/
def addIngressQdisc (host : Host) (link : Option HostIface) : Outcome Host :=
  match link with
  | none => .err "invalid link"
  | some l => .ok { host with qdiscs := l.name :: host.qdiscs }

/-- Modelled from the spec (§4.6): installs a catch-all classifier on `src`'s
ingress redirecting every packet to `dst`; fails (does not fault) if either
link reference is absent, and the kernel rejects a filter whose parent
ingress qdisc is missing (the ordering invariant of §4.6). -/
def addRedirectFilter (host : Host) (src dst : Option HostIface) : Outcome Host :=
  match src, dst with
  | some s, some d =>
    if host.qdiscs.contains s.name then
      .ok { host with filters := (s.name, d.name) :: host.filters }
    else
      .err "qdisc not found"
  | _, _ => .err "invalid link"

/-- Modelled from the spec (§4.6): removes every interception point installed
on the link; operating on an absent link returns an error rather than
faulting. -/
def deleteAllQDiscs (host : Host) (link : Option HostIface) : Outcome Host :=
  match link with
  | none => .err "invalid link"
  | some l => .ok { host with qdiscs := host.qdiscs.filter (fun n => n != l.name) }

/-- Modelled from the spec (§4.6): removes every classifier installed on the
link's ingress; operating on an absent link returns an error rather than
faulting. -/
def deleteAllTCFilters (host : Host) (link : Option HostIface) : Outcome Host :=
  match link with
  | none => .err "invalid link"
  | some l => .ok { host with filters := host.filters.filter (fun p => p.1 != l.name) }

/-- Modelled from the spec (§4.7 NAT/Forwarding Configurator): inserts a
masquerade rule for `subnet` egressing via `iface` and ensures the host-wide
IPv4-forwarding toggle is enabled. -/
def setNATRule (host : Host) (iface subnet : String) : Outcome Host :=
  .ok { host with natRules := (iface, subnet) :: host.natRules, ipForward := true }

/-- Resolve a link by name (netlink `LinkByName`): an absent name yields the
kernel's "Link not found" error. -/
def resolveLink (host : Host) (name : String) : Outcome HostIface :=
  match findIface host name with
  | none => .err "Link not found"
  | some l => .ok l

/-- Modelled from the spec (§4.9 Cleanup, implementation not in the tree):
resolves the named TAP device (a nonexistent device yields the kernel's
"Link not found" error), removes its mirror classifiers and interception
points, removes the matching redirect rule still resolvable on the physical
interface, then deletes the TAP device through its (now resolved, hence
non-nil) handle. -/
def Cleanup (host : Host) (tapName : String) : Outcome Host :=
  match findIface host tapName with
  | none => .err "Link not found"
  | some tapLink =>
    match deleteAllTCFilters host (some tapLink) with
    | .ok h1 =>
      match deleteAllQDiscs h1 (some tapLink) with
      | .ok h2 =>
        let h3 :=
          match findIface h2 DefaultInterface with
          | some ethLink =>
            { h2 with filters :=
                h2.filters.filter (fun p => !(p.1 == ethLink.name && p.2 == tapLink.name)) }
          | none => h2
        deleteTapDevice h3 (some tapLink)
      | r => r
    | r => r

/-- Device name used by the dynamic strategy for allocator index `i`:
Go's `strings.ReplaceAll(DefaultTap, "X", strconv.Itoa(tapIndex))`. -/
def dynamicTapName (i : Nat) : String :=
  replaceXStr (toString i) DefaultTap

/-- Sandbox address used by the dynamic strategy for allocator index `i`:
Go's `strings.ReplaceAll(DynamicNetworkTapIP+"/24", "X", strconv.Itoa(tapIndex+1))`. -/
def dynamicSandboxAddr (i : Nat) : String :=
  replaceXStr (toString (i + 1)) (DynamicNetworkTapIP ++ "/24")

/-- Tap-side (gateway) address used by the dynamic strategy for index `i`
(spec §4.4: `172.16.<tapIndex+1>.1/24`). -/
def dynamicTapAddr (i : Nat) : String :=
  replaceXStr (toString (i + 1)) "172.16.X.1/24"

/-- Assign an IPv4 address to the named link (netlink `AddrAdd` in the
model): records the address on the matching interface. -/
def assignAddr (host : Host) (name addr : String) : Host :=
  { host with ifaces :=
      host.ifaces.map (fun i => if i.name = name then { i with ipv4 := some addr } else i) }

/-- Queue count the managers create TAP devices with (a fixed positive
multi-queue count; its exact value is not observable in the tests). -/
def defaultTapQueues : Int := 1

/-- Modelled from the spec (§4.6): the shared mirror-installation sequence —
clear any stale classifiers and interception points on the physical
interface, attach fresh interception points on both links, then install the
two redirect classifiers eth0→tap and tap→eth0. -/
def installMirror (host : Host) (ethLink tapLink : HostIface) : Outcome Host := do
  let h1 ← deleteAllTCFilters host (some ethLink)
  let h2 ← deleteAllQDiscs h1 (some ethLink)
  let h3 ← addIngressQdisc h2 (some ethLink)
  let h4 ← addIngressQdisc h3 (some tapLink)
  let h5 ← addRedirectFilter h4 (some ethLink) (some tapLink)
  addRedirectFilter h5 (some tapLink) (some ethLink)

/-- The static addressing strategy (Go struct `StaticNetwork`). -/
structure StaticNetwork where
  deriving DecidableEq, Repr

/-- The dynamic addressing strategy (Go struct `DynamicNetwork`). -/
structure DynamicNetwork where
  deriving DecidableEq, Repr

/-- Modelled from the spec (§4.3 StaticNetwork strategy, implementation not
in the tree): requires eth0, always uses index 0, creates `tap0_urunc` with
gateway-side address `StaticIPAddr`, installs full-duplex mirroring, installs
the NAT rule and enables forwarding, introspects eth0 for its MAC, and
returns the fixed static descriptor. -/
def StaticNetwork.NetworkSetup (_ : StaticNetwork) (host : Host) (uid gid : Nat) :
    Outcome (Host × UnikernelNetworkInfo) :=
  Outcome.bind
    ((ensureEth0Exists host).mapErr (fun e => "failed to find eth0 interface: " ++ e))
    (fun _ => do
      let newTapName := replaceXStr "0" DefaultTap
      let (h1, tapLink) ← createTapDevice host newTapName defaultTapQueues uid gid
      let h2 := assignAddr h1 newTapName StaticIPAddr
      let ethLink ← resolveLink h2 DefaultInterface
      let h3 ← installMirror h2 ethLink tapLink
      let h4 ← setNATRule h3 DefaultInterface (StaticNetworkUnikernelIP ++ "/24")
      let ethInfo ← getInterfaceInfo h4 DefaultInterface
      Outcome.ok (h4,
        { TapDevice := newTapName,
          EthDevice :=
            { IP := StaticNetworkUnikernelIP, DefaultGateway := StaticNetworkTapIP,
              Mask := "255.255.255.0", Interface := DefaultInterface,
              MAC := ethInfo.MAC } }))

/-- Modelled from the spec (§4.4 DynamicNetwork strategy, implementation not
in the tree): requires eth0, computes the index via the Allocator and rejects
any index above 0 with the policy error the tests quote, derives the device
name and addresses from the index, installs mirroring only (no NAT),
introspects eth0 and returns the index-derived descriptor. -/
def DynamicNetwork.NetworkSetup (_ : DynamicNetwork) (host : Host) (uid gid : Nat) :
    Outcome (Host × UnikernelNetworkInfo) :=
  Outcome.bind
    ((ensureEth0Exists host).mapErr (fun e => "failed to find eth0 interface: " ++ e))
    (fun _ => do
      let tapIndex ← getTapIndex host
      if tapIndex > 0 then
        Outcome.err "unsupported operation: can't spawn multiple unikernels in the same network namespace"
      else do
        let newTapName := dynamicTapName tapIndex
        let (h1, tapLink) ← createTapDevice host newTapName defaultTapQueues uid gid
        let h2 := assignAddr h1 newTapName (dynamicTapAddr tapIndex)
        let ethLink ← resolveLink h2 DefaultInterface
        let h3 ← installMirror h2 ethLink tapLink
        let ethInfo ← getInterfaceInfo h3 DefaultInterface
        Outcome.ok (h3,
          { TapDevice := newTapName,
            EthDevice :=
              { IP := replaceXStr (toString (tapIndex + 1)) DynamicNetworkTapIP,
                DefaultGateway := replaceXStr (toString (tapIndex + 1)) "172.16.X.1",
                Mask := "255.255.255.0", Interface := DefaultInterface,
                MAC := ethInfo.MAC } }))

/-- The polymorphic manager capability (Go interface `Manager`), inhabited by
the two strategies. -/
inductive Manager where
  | staticNetwork : Manager
  | dynamicNetwork : Manager
  deriving DecidableEq, Repr

/-- Dispatch of `Manager.NetworkSetup` to the selected strategy. -/
def Manager.NetworkSetup (m : Manager) (host : Host) (uid gid : Nat) :
    Outcome (Host × UnikernelNetworkInfo) :=
  match m with
  | .staticNetwork => StaticNetwork.NetworkSetup {} host uid gid
  | .dynamicNetwork => DynamicNetwork.NetworkSetup {} host uid gid

/-- Modelled from the spec (§4.1 Factory, implementation not in the tree):
"static" and "dynamic" return the matching strategy; any other selector
(including the empty string) returns no manager and the error the tests
quote, `network manager <kind> not supported`.  Pure: a function of the
selector alone. -/
def NewNetworkManager (networkType : String) : Outcome Manager :=
  if networkType == "static" then .ok Manager.staticNetwork
  else if networkType == "dynamic" then .ok Manager.dynamicNetwork
  else .err ("network manager " ++ networkType ++ " not supported")

/-- ASCII lowercasing of one character. -/
def asciiLower (c : Char) : Char :=
  if 'A' ≤ c ∧ c ≤ 'Z' then Char.ofNat (c.toNat + 32) else c

/-- ASCII lowercasing of a string, used to read "mentions a phrase" without
regard to letter case. -/
def lowerStr (s : String) : String :=
  ⟨s.data.map asciiLower⟩

/-! ## Helper lemmas -/

theorem replaceXStr_defaultTap (r : String) :
    replaceXStr r DefaultTap = "tap" ++ r ++ "_urunc" := by
  apply String.ext
  show replaceX r "tapX_urunc".data = ("tap" ++ r ++ "_urunc").data
  simp only [String.data_append]
  show replaceX r ['t', 'a', 'p', 'X', '_', 'u', 'r', 'u', 'n', 'c'] =
    ['t', 'a', 'p'] ++ (r.data ++ ['_', 'u', 'r', 'u', 'n', 'c'])
  simp [replaceX]

theorem replaceXStr_dynTemplate (r : String) :
    replaceXStr r (DynamicNetworkTapIP ++ "/24") = "172.16." ++ r ++ ".2/24" := by
  apply String.ext
  show replaceX r ("172.16.X.2" ++ "/24").data = ("172.16." ++ r ++ ".2/24").data
  simp only [String.data_append]
  show replaceX r (['1', '7', '2', '.', '1', '6', '.', 'X', '.', '2'] ++ ['/', '2', '4']) =
    ['1', '7', '2', '.', '1', '6', '.'] ++ (r.data ++ ['.', '2', '/', '2', '4'])
  simp [replaceX]

theorem replaceXStr_zero : replaceXStr "0" DefaultTap = "tap0_urunc" := by decide

/-! ## Claim theorems -/

/-- C2: Dynamic addressing is a pure function of the allocator index `i`:
for every `i` in `[0,255]` the device name is `tap{i}_urunc` and the sandbox
address is `172.16.{i+1}.2/24`. -/
theorem dynamic_addressing_pure_function (i : Nat) (_h : i ≤ 255) :
    dynamicTapName i = "tap" ++ toString i ++ "_urunc" ∧
    dynamicSandboxAddr i = "172.16." ++ toString (i + 1) ++ ".2/24" :=
  ⟨replaceXStr_defaultTap (toString i), replaceXStr_dynTemplate (toString (i + 1))⟩

/-- Witness for C2 at the claim's own example index 254: the device name is
`tap254_urunc` and the sandbox address is `172.16.255.2/24`. -/
theorem dynamic_addressing_pure_function_witness :
    (254 ≤ 255 ∧
      (dynamicTapName 254 = "tap" ++ toString 254 ++ "_urunc" ∧
       dynamicSandboxAddr 254 = "172.16." ++ toString (254 + 1) ++ ".2/24")) ∧
    dynamicTapName 254 = "tap254_urunc" ∧ dynamicSandboxAddr 254 = "172.16.255.2/24" :=
  ⟨⟨by decide, dynamic_addressing_pure_function 254 (by decide)⟩, by decide, by decide⟩

/-- C4: `NewNetworkManager` on any selector other than "static"/"dynamic"
(including the empty string) yields no manager and an error whose message
names the selector and states it is not supported; "static" yields the
static strategy and "dynamic" the dynamic one, with no error (the function
is pure by construction — a function of the selector alone). -/
theorem newNetworkManager_spec (kind : String) :
    (kind ≠ "static" → kind ≠ "dynamic" →
      ∃ msg, NewNetworkManager kind = .err msg ∧
        MentionsStr msg kind ∧ MentionsStr msg "not supported") ∧
    NewNetworkManager "static" = .ok Manager.staticNetwork ∧
    NewNetworkManager "dynamic" = .ok Manager.dynamicNetwork := by
  refine ⟨fun h1 h2 => ?_, by decide, by decide⟩
  refine ⟨"network manager " ++ kind ++ " not supported", ?_, ?_, ?_⟩
  · simp [NewNetworkManager, h1, h2]
  · exact ⟨"network manager ".data, " not supported".data, by simp [MentionsStr, String.data_append]⟩
  · refine List.IsInfix.trans
      (show "not supported".data <:+: " not supported".data by decide) ?_
    exact ⟨"network manager ".data ++ kind.data, [], by simp [String.data_append]⟩

/-- Witness for C4 at the unsupported selector "bridge". -/
theorem newNetworkManager_spec_witness :
    ("bridge" ≠ "static" ∧ "bridge" ≠ "dynamic") ∧
    (∃ msg, NewNetworkManager "bridge" = .err msg ∧
      MentionsStr msg "bridge" ∧ MentionsStr msg "not supported") :=
  ⟨⟨by decide, by decide⟩,
   (newNetworkManager_spec "bridge").1 (by decide) (by decide)⟩

/-- C5: whenever `getTapIndex` succeeds its result equals the number of host
interfaces whose name begins with "tap" and lies in `[0,255]`, and it fails
with an error when that count exceeds 255. -/
theorem getTapIndex_spec (host : Host) :
    (∀ i, getTapIndex host = .ok i → i = tapIfaceCount host ∧ i ≤ 255) ∧
    (255 < tapIfaceCount host → ∃ msg, getTapIndex host = .err msg) ∧
    (tapIfaceCount host ≤ 255 → getTapIndex host = .ok (tapIfaceCount host)) := by
  refine ⟨fun i hi => ?_, fun hgt => ?_, fun hle => ?_⟩
  · by_cases h : tapIfaceCount host > 255
    · simp only [getTapIndex, if_pos h] at hi
      cases hi
    · simp only [getTapIndex, if_neg h] at hi
      cases hi
      omega
  · exact ⟨"getTapIndex: exceeded the maximum number of tap devices",
      by simp only [getTapIndex, if_pos hgt]⟩
  · simp only [getTapIndex, if_neg (by omega : ¬ tapIfaceCount host > 255)]

/-- C8: the two deletion failure contracts are distinct — `deleteTapDevice`
on an absent (nil) handle faults (panics) rather than returning an error
value, while `deleteAllQDiscs` and `deleteAllTCFilters` on an absent (nil)
link return an error value and do not fault. -/
theorem delete_contracts (host : Host) :
    (∃ m, deleteTapDevice host none = .fault m) ∧
    (∃ e, deleteAllQDiscs host none = .err e) ∧
    (∃ e, deleteAllTCFilters host none = .err e) :=
  ⟨⟨_, rfl⟩, ⟨_, rfl⟩, ⟨_, rfl⟩⟩

/-- C9: `ensureEth0Exists` returns no error exactly when a host interface
literally named "eth0" is present, and any error it returns carries the
message "eth0 device not found". -/
theorem ensureEth0Exists_spec (host : Host) :
    (ensureEth0Exists host = .ok () ↔ ∃ ifc ∈ host.ifaces, ifc.name = "eth0") ∧
    (∀ msg, ensureEth0Exists host = .err msg → MentionsStr msg "eth0 device not found") := by
  by_cases h : (findIface host DefaultInterface).isSome
  · refine ⟨⟨fun _ => ?_, fun _ => ?_⟩, fun msg hmsg => ?_⟩
    · obtain ⟨x, hx, hpx⟩ := List.find?_isSome.mp h
      exact ⟨x, hx, by simpa using hpx⟩
    · simp only [ensureEth0Exists, if_pos h]
    · simp only [ensureEth0Exists, if_pos h] at hmsg
      cases hmsg
  · have hnone : findIface host DefaultInterface = none := by
      cases hf : findIface host DefaultInterface with
      | none => rfl
      | some x => rw [hf] at h; simp at h
    refine ⟨⟨fun hc => ?_, fun hex => ?_⟩, fun msg hmsg => ?_⟩
    · simp only [ensureEth0Exists, if_neg h] at hc
      cases hc
    · obtain ⟨x, hx, hname⟩ := hex
      have := List.find?_eq_none.mp hnone x hx
      simp [DefaultInterface, hname] at this
    · simp only [ensureEth0Exists, if_neg h] at hmsg
      cases hmsg
      decide

/-- Cleanup never faults: every removal step it runs operates on a resolved
(non-nil) handle, and an unresolvable TAP name is a returned error. -/
theorem cleanup_never_faults (host : Host) (tapName : String) (m : String) :
    Cleanup host tapName ≠ .fault m := by
  unfold Cleanup
  split
  · intro hc; cases hc
  · simp only [deleteAllTCFilters, deleteAllQDiscs, deleteTapDevice]
    repeat' split
    all_goals (intro hc; cases hc)

/-- C6: `getInterfaceInfo` on a nonexistent interface name fails with an
error mentioning "no such network interface", and on every successful call
the returned descriptor's `Interface` field equals the fixed default label
`DefaultInterface` (= "eth0"), never the queried name. -/
theorem getInterfaceInfo_spec (host : Host) (name : String) :
    (findIface host name = none →
      ∃ msg, getInterfaceInfo host name = .err msg ∧
        MentionsStr msg "no such network interface") ∧
    (∀ info, getInterfaceInfo host name = .ok info →
      info.Interface = DefaultInterface) := by
  constructor
  · intro hnone
    refine ⟨"route ip+net: no such network interface", ?_, by decide⟩
    simp only [getInterfaceInfo, hnone]
  · intro info hinfo
    unfold getInterfaceInfo at hinfo
    repeat' split at hinfo
    all_goals first
      | (cases hinfo; rfl)
      | cases hinfo

/-- C7: for every device name naming no existing link, `Cleanup` returns an
error value whose message mentions (up to letter case) "link not found" and
never faults — a recoverable returned value, not a panic. -/
theorem cleanup_nonexistent_spec (host : Host) (name : String)
    (h : findIface host name = none) :
    (∃ msg, Cleanup host name = .err msg ∧ MentionsStr (lowerStr msg) "link not found") ∧
    ∀ m, Cleanup host name ≠ .fault m := by
  refine ⟨⟨"Link not found", ?_, by decide⟩, fun m => cleanup_never_faults host name m⟩
  simp only [Cleanup, h]

/-- C10: `Cleanup` does not special-case the empty string — `Cleanup("")`
takes the very same path as any other nonexistent device name: when "" names
no link the result is the same "Link not found" error any absent name gets,
and the call never faults. -/
theorem cleanup_empty_spec (host : Host) :
    (findIface host "" = none →
      (Cleanup host "" = .err "Link not found" ∧
       ∀ name, findIface host name = none → Cleanup host "" = Cleanup host name)) ∧
    (∀ m, Cleanup host "" ≠ .fault m) := by
  constructor
  · intro hempty
    constructor
    · simp only [Cleanup, hempty]
    · intro name hname
      simp only [Cleanup, hempty, hname]
  · exact fun m => cleanup_never_faults host "" m

/-- C3: whenever the dynamic strategy's allocator is consulted (that is, the
eth0 precondition passed) and computes an index greater than 0, the dynamic
`NetworkSetup` fails with the policy error stating multiple unikernels can't
share one network namespace, returning no descriptor (an `err` outcome
carries no `UnikernelNetworkInfo`). -/
theorem dynamic_policy_reject (host : Host) (uid gid : Nat) (i : Nat)
    (heth : ensureEth0Exists host = .ok ())
    (hidx : getTapIndex host = .ok i) (hpos : 0 < i) :
    ∃ msg, DynamicNetwork.NetworkSetup {} host uid gid = .err msg ∧
      MentionsStr msg "can't spawn multiple unikernels in the same network namespace" := by
  refine ⟨"unsupported operation: can't spawn multiple unikernels in the same network namespace",
    ?_, by decide⟩
  unfold DynamicNetwork.NetworkSetup
  rw [heth]
  simp only [Outcome.mapErr_ok, Outcome.bind_ok]
  simp only [Outcome.monad_bind_eq, hidx, Outcome.bind_ok]
  simp only [gt_iff_lt, if_pos hpos]

/-- C1: for every host, uid and gid, a successful static `NetworkSetup`
returns exactly the constant descriptor — `TapDevice` is `tap0_urunc` and
`EthDevice` carries IP `172.16.1.2`, gateway `172.16.1.1`, mask
`255.255.255.0`, label `eth0` and eth0's own MAC.  The universal
quantification over the host state shows the addresses are constants,
independent of host topology and of the allocator's index. -/
theorem static_descriptor (host : Host) (uid gid : Nat) (h' : Host)
    (info : UnikernelNetworkInfo)
    (hsetup : StaticNetwork.NetworkSetup {} host uid gid = .ok (h', info)) :
    ∃ e, findIface host DefaultInterface = some e ∧ ∃ mac, e.mac = some mac ∧
      info = { TapDevice := "tap0_urunc",
               EthDevice := { IP := "172.16.1.2", DefaultGateway := "172.16.1.1",
                              Mask := "255.255.255.0", Interface := "eth0", MAC := mac } } := by
  unfold StaticNetwork.NetworkSetup at hsetup
  cases hfind : findIface host DefaultInterface with
  | none => simp [ensureEth0Exists, hfind] at hsetup
  | some e =>
    refine ⟨e, rfl, ?_⟩
    simp only [ensureEth0Exists, hfind, Option.isSome_some, if_true, ite_true,
      Outcome.mapErr_ok, Outcome.bind_ok, Outcome.monad_bind_eq] at hsetup
    rw [replaceXStr_zero] at hsetup
    unfold createTapDevice at hsetup
    have hc2 : ¬ (defaultTapQueues < 0) := by decide
    cases hcol : findIface host "tap0_urunc" with
    | some x => simp [hcol, hc2] at hsetup
    | none =>
      simp only [hcol] at hsetup
      simp [hc2] at hsetup
      have hename : e.name = DefaultInterface := by
        have := List.find?_some hfind
        simpa using this
      have hcompeq : ((fun i : HostIface => i.name == "eth0") ∘
          (fun i : HostIface =>
            if i.name = "tap0_urunc" then { i with ipv4 := some StaticIPAddr } else i)) =
          (fun i : HostIface => i.name == "eth0") := by
        funext i
        show ((if i.name = "tap0_urunc" then { i with ipv4 := some StaticIPAddr } else i).name ==
          "eth0") = (i.name == "eth0")
        by_cases h : i.name = "tap0_urunc"
        · rw [if_pos h]
        · rw [if_neg h]
      have hfind2 : List.find? (fun i : HostIface => i.name == "eth0") host.ifaces = some e :=
        hfind
      have hename2 : e.name = "eth0" := hename
      simp [resolveLink, installMirror, deleteAllTCFilters, deleteAllQDiscs,
        addIngressQdisc, addRedirectFilter, assignAddr, setNATRule, getInterfaceInfo,
        findIface, DefaultInterface, hename2, hcompeq, hfind2] at hsetup
      cases hmac : e.mac with
      | none => rw [hmac] at hsetup; simp at hsetup
      | some mac =>
        rw [hmac] at hsetup
        cases hip : e.ipv4 with
        | none => rw [hip] at hsetup; simp at hsetup
        | some ip =>
          rw [hip] at hsetup
          cases hmh : e.maskHex with
          | none => rw [hmh] at hsetup; simp at hsetup
          | some mh =>
            rw [hmh] at hsetup
            simp only [Outcome.bind_ok, Outcome.ok.injEq, Prod.mk.injEq] at hsetup
            exact ⟨mac, rfl, hsetup.2.symm⟩

/-! ## Concrete hosts for the witnesses -/

/-- A loopback interface: present but without a MAC address. -/
def demoLo : HostIface :=
  { name := "lo", mac := none, ipv4 := some "127.0.0.1", maskHex := some "ff000000",
    gateway := "", owner := none, up := true }

/-- A fully populated eth0 interface. -/
def demoEth0 : HostIface :=
  { name := "eth0", mac := some "aa:bb:cc:dd:ee:ff", ipv4 := some "10.0.0.5",
    maskHex := some "ffffff00", gateway := "10.0.0.1", owner := none, up := true }

/-- A fully populated non-eth0 interface, used to show the introspector's
constant-label quirk on a successful non-eth0 query. -/
def demoWlan : HostIface :=
  { name := "wlan0", mac := some "11:22:33:44:55:66", ipv4 := some "192.168.1.7",
    maskHex := some "ffffff00", gateway := "192.168.1.1", owner := none, up := true }

/-- A TAP device left over from an earlier sandbox in the same namespace. -/
def demoTap : HostIface :=
  { name := "tap0_urunc", mac := none, ipv4 := none, maskHex := none,
    gateway := "", owner := some (1000, 1000), up := true }

/-- A host with lo, eth0 and wlan0 and no TAP devices. -/
def demoHost : Host :=
  { ifaces := [demoLo, demoEth0, demoWlan], qdiscs := [], filters := [],
    natRules := [], ipForward := false }

/-- A host whose namespace already contains one TAP device. -/
def demoTapHost : Host :=
  { ifaces := [demoLo, demoEth0, demoTap], qdiscs := [], filters := [],
    natRules := [], ipForward := false }

/-- A host without any eth0 interface. -/
def demoNoEthHost : Host :=
  { ifaces := [demoLo], qdiscs := [], filters := [], natRules := [], ipForward := false }

/-- The host state after a successful static setup on `demoHost`. -/
def demoStaticFinalHost : Host :=
  { ifaces := [demoLo, demoEth0, demoWlan,
      { name := "tap0_urunc", mac := none, ipv4 := some "172.16.1.1/24", maskHex := none,
        gateway := "", owner := some (1000, 1000), up := true }],
    qdiscs := ["tap0_urunc", "eth0"],
    filters := [("tap0_urunc", "eth0"), ("eth0", "tap0_urunc")],
    natRules := [("eth0", "172.16.1.2/24")],
    ipForward := true }

/-- The descriptor a successful static setup on `demoHost` returns. -/
def demoStaticInfo : UnikernelNetworkInfo :=
  { TapDevice := "tap0_urunc",
    EthDevice := { IP := "172.16.1.2", DefaultGateway := "172.16.1.1",
                   Mask := "255.255.255.0", Interface := "eth0",
                   MAC := "aa:bb:cc:dd:ee:ff" } }

/-- The descriptor a successful introspection of `wlan0` on `demoHost`
returns — its `Interface` field is the default label, not "wlan0". -/
def demoWlanInfo : Interface :=
  { IP := "192.168.1.7", DefaultGateway := "192.168.1.1", Mask := "255.255.255.0",
    Interface := "eth0", MAC := "11:22:33:44:55:66" }

/-! ## Witnesses -/

/-- Witness for C1: on `demoHost` the static setup succeeds and the theorem
yields the constant descriptor with eth0's MAC. -/
theorem static_descriptor_witness :
    StaticNetwork.NetworkSetup {} demoHost 1000 1000 =
      .ok (demoStaticFinalHost, demoStaticInfo) ∧
    (∃ e, findIface demoHost DefaultInterface = some e ∧ ∃ mac, e.mac = some mac ∧
      demoStaticInfo = { TapDevice := "tap0_urunc",
                         EthDevice := { IP := "172.16.1.2", DefaultGateway := "172.16.1.1",
                                        Mask := "255.255.255.0", Interface := "eth0",
                                        MAC := mac } }) :=
  ⟨by decide,
   static_descriptor demoHost 1000 1000 demoStaticFinalHost demoStaticInfo (by decide)⟩

/-- Witness for C3: in a namespace already holding one TAP device the
allocator yields index 1 and the dynamic setup fails with the policy
error. -/
theorem dynamic_policy_reject_witness :
    (ensureEth0Exists demoTapHost = .ok () ∧ getTapIndex demoTapHost = .ok 1 ∧ 0 < 1) ∧
    (∃ msg, DynamicNetwork.NetworkSetup {} demoTapHost 1000 1000 = .err msg ∧
      MentionsStr msg "can't spawn multiple unikernels in the same network namespace") :=
  ⟨⟨by decide, by decide, by decide⟩,
   dynamic_policy_reject demoTapHost 1000 1000 1 (by decide) (by decide) (by decide)⟩

/-- Witness for C5: on a host with one TAP device the allocator returns
exactly the count of tap-named interfaces. -/
theorem getTapIndex_spec_witness :
    tapIfaceCount demoTapHost ≤ 255 ∧
    getTapIndex demoTapHost = .ok (tapIfaceCount demoTapHost) :=
  ⟨by decide, (getTapIndex_spec demoTapHost).2.2 (by decide)⟩

/-- Witness for C6: a nonexistent name yields the "no such network
interface" error, and a successful query of `wlan0` still reports the
default label in the `Interface` field. -/
theorem getInterfaceInfo_spec_witness :
    (findIface demoHost "nonexistent999" = none ∧
      ∃ msg, getInterfaceInfo demoHost "nonexistent999" = .err msg ∧
        MentionsStr msg "no such network interface") ∧
    (getInterfaceInfo demoHost "wlan0" = .ok demoWlanInfo ∧ "wlan0" ≠ DefaultInterface ∧
      demoWlanInfo.Interface = DefaultInterface) :=
  ⟨⟨by decide, (getInterfaceInfo_spec demoHost "nonexistent999").1 (by decide)⟩,
   ⟨by decide, by decide, (getInterfaceInfo_spec demoHost "wlan0").2 demoWlanInfo (by decide)⟩⟩

/-- Witness for C7: cleaning up a nonexistent TAP name returns the
"Link not found" error. -/
theorem cleanup_nonexistent_spec_witness :
    findIface demoHost "nonexistent_tap_device" = none ∧
    (∃ msg, Cleanup demoHost "nonexistent_tap_device" = .err msg ∧
      MentionsStr (lowerStr msg) "link not found") :=
  ⟨by decide, (cleanup_nonexistent_spec demoHost "nonexistent_tap_device" (by decide)).1⟩

/-- Witness for C9: with eth0 present the check succeeds; without eth0 it
fails with the "eth0 device not found" message. -/
theorem ensureEth0Exists_spec_witness :
    ((∃ ifc ∈ demoHost.ifaces, ifc.name = "eth0") ∧ ensureEth0Exists demoHost = .ok ()) ∧
    (ensureEth0Exists demoNoEthHost = .err "eth0 device not found" ∧
      MentionsStr "eth0 device not found" "eth0 device not found") :=
  ⟨⟨by decide, ((ensureEth0Exists_spec demoHost).1).mpr (by decide)⟩,
   ⟨by decide, (ensureEth0Exists_spec demoNoEthHost).2 "eth0 device not found" (by decide)⟩⟩

/-- Witness for C10: the empty string names no link on `demoHost` and
cleanup returns the same "Link not found" error as any absent name. -/
theorem cleanup_empty_spec_witness :
    findIface demoHost "" = none ∧ Cleanup demoHost "" = .err "Link not found" :=
  ⟨by decide, ((cleanup_empty_spec demoHost).1 (by decide)).1⟩

end Urunc
